import Mathlib

/-!
Shallow embedding of the `drift/` package of the
`ml-model-monitoring-drift-detection` repository, together with proofs
checking its natural-language specification against the code.

Conventions of the embedding:
* Python floats are modelled as rationals (`ℚ`); the natural logarithm,
  SciPy's `ks_2samp` and `chi2_contingency` are external numeric routines
  and are taken as parameters of the functions that call them.
* Python exceptions are modelled with `Except PErr`; `ValueError`,
  `TypeError` and `KeyError` carry their message / key.
* A Python dict with string keys is modelled as an association list
  `List (String × Val)` (first occurrence wins on lookup, as dict keys
  are unique); insertion order is the list order.
* A dynamically typed Python value reaching the alert generator is a
  `PyObj`: a dict, `None`, or an atomic value (`bool`, number, string).
-/

/-- Python exceptions raised by the drift package. -/
inductive PErr where
  | valueError (msg : String)
  | typeError (msg : String)
  | keyError (key : String)
deriving DecidableEq, Repr

/-- An atomic Python value stored in a detection record. -/
inductive Val where
  | b (x : Bool)
  | q (x : ℚ)
  | s (x : String)
deriving DecidableEq, Repr

/-- A dynamically typed value passed to `generate_alert`. -/
inductive PyObj where
  | dict (entries : List (String × Val))
  | pynone
  | atom (v : Val)
deriving DecidableEq, Repr

/-- A detection record: a Python dict with string keys. -/
abbrev Record := List (String × Val)

/-- Python `d[k]`: raises `KeyError` when the key is absent. -/
def getItem (l : Record) (k : String) : Except PErr Val :=
  match l.lookup k with
  | some v => Except.ok v
  | none => Except.error (PErr.keyError k)

/-- Python truthiness of an atomic value (`bool(v)`). -/
def pyTruthy : Val → Bool
  | Val.b x => x
  | Val.q x => x ≠ 0
  | Val.s x => x ≠ ""

/-- Python `str(v)` for the values that can appear as a `metric` tag. -/
def pyStr : Val → String
  | Val.b x => if x then "True" else "False"
  | Val.q x => toString x
  | Val.s x => x

/- ### src/drift/detectors.py -/

/-- `detect_psi_drift(psi_value, threshold)` from `src/drift/detectors.py`:
validates `threshold > 0` and returns the PSI detection record. -/
def detect_psi_drift (psi_value threshold : ℚ) : Except PErr Record :=
  if threshold ≤ 0 then
    Except.error (PErr.valueError "threshold must be greater than 0")
  else
    Except.ok [("drift_detected", Val.b (psi_value > threshold)),
               ("metric", Val.s "psi"),
               ("value", Val.q psi_value),
               ("threshold", Val.q threshold)]

/-- `detect_ks_drift(statistic, p_value, threshold)` from
`src/drift/detectors.py`: drift is decided on the statistic. -/
def detect_ks_drift (statistic p_value threshold : ℚ) : Except PErr Record :=
  if threshold ≤ 0 then
    Except.error (PErr.valueError "threshold must be greater than 0")
  else
    Except.ok [("drift_detected", Val.b (statistic > threshold)),
               ("metric", Val.s "ks"),
               ("statistic", Val.q statistic),
               ("p_value", Val.q p_value),
               ("threshold", Val.q threshold)]

/-- `detect_chi_square_drift(statistic, p_value, threshold)` from
`src/drift/detectors.py`: drift is decided on the p-value. -/
def detect_chi_square_drift (statistic p_value threshold : ℚ) :
    Except PErr Record :=
  if threshold ≤ 0 then
    Except.error (PErr.valueError "threshold must be greater than 0")
  else
    Except.ok [("drift_detected", Val.b (p_value < threshold)),
               ("metric", Val.s "chi_square"),
               ("statistic", Val.q statistic),
               ("p_value", Val.q p_value),
               ("threshold", Val.q threshold)]

/- ### src/drift/alerts.py -/

/-- Python numeric coercion for `<=`: booleans compare as 0/1, strings
are not numbers. -/
def toNum : Val → Option ℚ
  | Val.b x => some (if x then 1 else 0)
  | Val.q x => some x
  | Val.s _ => none

/-- Python `2 * v`: doubles a number (booleans as ints), repeats a
string twice. -/
def pyMul2 : Val → Val
  | Val.b x => Val.q (if x then 2 else 0)
  | Val.q x => Val.q (2 * x)
  | Val.s x => Val.s (x ++ x)

/-- Python `a <= b` on atomic values: numeric comparison when both sides
are numbers (booleans as 0/1), lexicographic when both are strings, and
`TypeError` on a mixed comparison. -/
def pyLe (a b : Val) : Except PErr Bool :=
  match toNum a, toNum b with
  | some x, some y => Except.ok (decide (x ≤ y))
  | _, _ =>
    match a, b with
    | Val.s x, Val.s y => Except.ok (x == y || decide (x < y))
    | _, _ => Except.error (PErr.typeError "unorderable types in comparison")

/-- The severity-selection value of `generate_alert`
(`src/drift/alerts.py` lines 41-53): prefer `value`, else `statistic`,
else — when `p_value` is present — `detector_output.get("statistic", 0)`
(necessarily `0` on that branch), else `0`. -/
def svalue (l : Record) : Val :=
  match l.lookup "value" with
  | some v => v
  | none =>
    match l.lookup "statistic" with
    | some v => v
    | none =>
      if (l.lookup "p_value").isSome then (l.lookup "statistic").getD (Val.q 0)
      else Val.q 0

/-- The alert dict returned by `generate_alert`: exactly the five
top-level keys `{alert, severity, metric, message, details}`. -/
structure Alert where
  alert : Bool
  severity : String
  metric : Val
  message : String
  details : Record
deriving DecidableEq, Repr

/-- `generate_alert(detector_output)` from `src/drift/alerts.py`. -/
def generate_alert (detector_output : PyObj) : Except PErr (Option Alert) :=
  match detector_output with
  | PyObj.pynone => Except.error (PErr.typeError "detector_output must be a dictionary")
  | PyObj.atom _ => Except.error (PErr.typeError "detector_output must be a dictionary")
  | PyObj.dict l =>
    match l.lookup "drift_detected" with
    | none => Except.error (PErr.valueError "drift_detected key is required")
    | some dd =>
      match l.lookup "metric" with
      | none => Except.error (PErr.valueError "metric key is required")
      | some metric =>
        if !pyTruthy dd then Except.ok none
        else
          let value := svalue l
          let threshold := (l.lookup "threshold").getD (Val.q 0)
          match pyLe value (pyMul2 threshold) with
          | Except.error e => Except.error e
          | Except.ok le =>
            Except.ok (some
              { alert := true
                severity := if le then "warning" else "critical"
                metric := metric
                message := "Drift detected using " ++ pyStr metric ++ " metric"
                details := l.filter (fun kv => kv.1 != "drift_detected") })

/- ### src/drift/windows.py -/

/-- `get_windows(data, reference_size, current_size)` from
`src/drift/windows.py`: the reference window is the first
`reference_size` rows (`data.iloc[:reference_size]`) and the current
window is the last `current_size` rows (`data.iloc[-current_size:]`,
which under the guard `0 < current_size ≤ len(data)` is the suffix
dropping `len(data) - current_size` rows). Sizes are Python ints (ℤ). -/
def get_windows {α : Type} (data : List α) (reference_size current_size : ℤ) :
    Except PErr (List α × List α) :=
  if reference_size ≤ 0 then
    Except.error (PErr.valueError "reference_size must be greater than 0")
  else if current_size ≤ 0 then
    Except.error (PErr.valueError "current_size must be greater than 0")
  else
    let data_size : ℤ := data.length
    if reference_size > data_size then
      Except.error (PErr.valueError ("reference_size (" ++ toString reference_size
        ++ ") exceeds data size (" ++ toString data_size ++ ")"))
    else if current_size > data_size then
      Except.error (PErr.valueError ("current_size (" ++ toString current_size
        ++ ") exceeds data size (" ++ toString data_size ++ ")"))
    else
      Except.ok (data.take reference_size.toNat,
                 data.drop (data.length - current_size.toNat))

/- ### src/drift/metrics.py — calculate_psi -/

/-- `np.min` over a 1-D array (only used on non-empty input; the empty
case is unreachable behind the emptiness check in `calculate_psi`). -/
def npMin : List ℚ → ℚ
  | [] => 0
  | x :: xs => xs.foldl min x

/-- `np.max` over a 1-D array (same remark as `npMin`). -/
def npMax : List ℚ → ℚ
  | [] => 0
  | x :: xs => xs.foldl max x

/-- `np.linspace(reference.min(), reference.max(), 11)`: the j-th of the
11 equally spaced bin edges. -/
def psiEdge (rmin rmax : ℚ) (j : ℕ) : ℚ := rmin + j * ((rmax - rmin) / 10)

/-- `np.histogram`'s cumulative count below edge `j` (searchsorted,
side='left'): the code replaces edge 0 by `-inf` (nothing below it) and
edge 10 by `+inf` (everything below it). -/
def psiCum (rmin rmax : ℚ) (sample : List ℚ) (j : ℕ) : ℕ :=
  if j = 0 then 0
  else if j = 10 then sample.length
  else sample.countP (fun x => decide (x < psiEdge rmin rmax j))

/-- Per-bin histogram count: difference of consecutive cumulative
counts, as `np.histogram` computes it. -/
def psiCount (rmin rmax : ℚ) (sample : List ℚ) (i : ℕ) : ℕ :=
  psiCum rmin rmax sample (i + 1) - psiCum rmin rmax sample i

/-- Per-bin proportion: `count / len(sample)`. -/
def psiProp (rmin rmax : ℚ) (sample : List ℚ) (i : ℕ) : ℚ :=
  (psiCount rmin rmax sample i : ℚ) / (sample.length : ℚ)

/-- `np.where(props == 0, epsilon, props)` with `epsilon = 1e-10`. -/
def psiSmooth (p : ℚ) : ℚ := if p = 0 then 1 / 10 ^ 10 else p

/-- `calculate_psi(reference, current)` from `src/drift/metrics.py`,
parameterized by the external natural logarithm `logf` (`np.log`). The
dtype check rejecting categorical arrays is vacuous here because the
embedding types samples as lists of numbers. -/
def calculate_psi (logf : ℚ → ℚ) (reference current : List ℚ) :
    Except PErr ℚ :=
  if reference.length = 0 then
    Except.error (PErr.valueError "reference data cannot be empty")
  else if current.length = 0 then
    Except.error (PErr.valueError "current data cannot be empty")
  else
    let rmin := npMin reference
    let rmax := npMax reference
    Except.ok (∑ i ∈ Finset.range 10,
      (psiSmooth (psiProp rmin rmax current i) -
        psiSmooth (psiProp rmin rmax reference i)) *
      logf (psiSmooth (psiProp rmin rmax current i) /
        psiSmooth (psiProp rmin rmax reference i)))

/- Spec-side rendering of the PSI computation, for the refinement claim
C3. The binning here follows the spec's words directly: bin `i` of 10 is
the interval from edge `i` to edge `i+1`, with the first bin's lower
edge and the last bin's upper edge extended to ±infinity (no lower test
for bin 0, no upper test for bin 9). -/

/-- Membership of a value in spec bin `i` (of 10): lower edge dropped
for bin 0, upper edge dropped for bin 9. -/
def specBinMem (rmin rmax : ℚ) (i : ℕ) (x : ℚ) : Bool :=
  (decide (i = 0) || decide (psiEdge rmin rmax i ≤ x)) &&
  (decide (i = 9) || decide (x < psiEdge rmin rmax (i + 1)))

/-- Spec-side per-bin count: how many sample values lie in bin `i`. -/
def specBinCount (rmin rmax : ℚ) (sample : List ℚ) (i : ℕ) : ℕ :=
  sample.countP (fun x => specBinMem rmin rmax i x)

/-- Spec-side per-bin proportion. -/
def specProp (rmin rmax : ℚ) (sample : List ℚ) (i : ℕ) : ℚ :=
  (specBinCount rmin rmax sample i : ℚ) / (sample.length : ℚ)

/-- PSI as the spec states it: Σ over the 10 bins of
`(curr_prop - ref_prop) * ln(curr_prop / ref_prop)` after zero-smoothing
each channel independently. -/
def calculate_psi_spec (logf : ℚ → ℚ) (reference current : List ℚ) : ℚ :=
  let rmin := npMin reference
  let rmax := npMax reference
  ∑ i ∈ Finset.range 10,
    (psiSmooth (specProp rmin rmax current i) -
      psiSmooth (specProp rmin rmax reference i)) *
    logf (psiSmooth (specProp rmin rmax current i) /
      psiSmooth (specProp rmin rmax reference i))

/- ### src/drift/metrics.py — calculate_ks / calculate_chi_square -/

/-- `calculate_ks(reference, current)` from `src/drift/metrics.py`:
emptiness checks, then the external SciPy two-sample KS test
(`stats.ks_2samp`, taken as a parameter), returned as
(statistic, p_value). The dtype check rejecting categorical arrays is
vacuous in this typed embedding. -/
def calculate_ks (ks2samp : List ℚ → List ℚ → ℚ × ℚ)
    (reference current : List ℚ) : Except PErr (ℚ × ℚ) :=
  if reference.length = 0 then
    Except.error (PErr.valueError "reference data cannot be empty")
  else if current.length = 0 then
    Except.error (PErr.valueError "current data cannot be empty")
  else
    Except.ok (ks2samp reference current)

/-- `calculate_chi_square(reference, current)` from
`src/drift/metrics.py`: emptiness checks, then the category counting
plus `stats.chi2_contingency`, modelled together as one external
function from the two samples to (statistic, p_value). -/
def calculate_chi_square (chi2 : List ℚ → List ℚ → ℚ × ℚ)
    (reference current : List ℚ) : Except PErr (ℚ × ℚ) :=
  if reference.length = 0 then
    Except.error (PErr.valueError "reference data cannot be empty")
  else if current.length = 0 then
    Except.error (PErr.valueError "current data cannot be empty")
  else
    Except.ok (chi2 reference current)

/- ### src/drift/pipeline.py -/

/-- A metric result: a bare scalar for PSI, a
(statistic, p_value) pair for KS and Chi-Square. -/
inductive MetricResult where
  | scalar (v : ℚ)
  | test (statistic p_value : ℚ)
deriving DecidableEq, Repr

/-- The report assembled by `run_drift_pipeline`. -/
structure Report where
  drift_detected : Val
  alerts : List Alert
  metrics : List (String × MetricResult)
  window : ℕ × ℕ
deriving DecidableEq, Repr

/-- The tail of `run_drift_pipeline` (lines 68-81): generate the alert,
wrap it in a 0- or 1-element list, and assemble the report from the
detector output's `drift_detected` entry. -/
def assemble_report (ref_len cur_len : ℕ)
    (pair : Record × List (String × MetricResult)) : Except PErr Report :=
  match generate_alert (PyObj.dict pair.1) with
  | Except.error e => Except.error e
  | Except.ok alert =>
    let alerts := match alert with | some a => [a] | none => []
    match getItem pair.1 "drift_detected" with
    | Except.error e => Except.error e
    | Except.ok dd =>
      Except.ok { drift_detected := dd, alerts := alerts,
                  metrics := pair.2, window := (ref_len, cur_len) }

/-- `run_drift_pipeline(reference_data, current_data, *, feature_type,
metric, threshold)` from `src/drift/pipeline.py`. Tables are modelled by
their first column (the only part the pipeline reads, via
`.iloc[:, 0]`); the external log and SciPy tests are parameters. The
final metric branch is `chi_square`, guaranteed by the preceding
supported-metric check. `feature_type` is accepted and never used, as in
the source. -/
def run_drift_pipeline (logf : ℚ → ℚ)
    (ks2samp chi2 : List ℚ → List ℚ → ℚ × ℚ)
    (reference_data current_data : List ℚ)
    (feature_type metric : String) (threshold : ℚ) : Except PErr Report :=
  if reference_data.length = 0 then
    Except.error (PErr.valueError "reference data cannot be empty")
  else if current_data.length = 0 then
    Except.error (PErr.valueError "current data cannot be empty")
  else if metric ∉ (["psi", "ks", "chi_square"] : List String) then
    Except.error (PErr.valueError ("unsupported metric: " ++ metric))
  else
    match (if metric = "psi" then
        (calculate_psi logf reference_data current_data).bind (fun m =>
          (detect_psi_drift m threshold).map
            (fun d => (d, [("psi", MetricResult.scalar m)])))
      else if metric = "ks" then
        (calculate_ks ks2samp reference_data current_data).bind (fun r =>
          (detect_ks_drift r.1 r.2 threshold).map
            (fun d => (d, [("ks", MetricResult.test r.1 r.2)])))
      else
        (calculate_chi_square chi2 reference_data current_data).bind (fun r =>
          (detect_chi_square_drift r.1 r.2 threshold).map
            (fun d => (d, [("chi_square", MetricResult.test r.1 r.2)])))) with
    | Except.error e => Except.error e
    | Except.ok pr =>
      assemble_report reference_data.length current_data.length pr

/-- The report returned by the stub `run_pipeline`. -/
structure SimpleReport where
  drift_detected : Bool
  metrics : List (String × MetricResult)
  alerts : List Alert
deriving DecidableEq, Repr

/-- `run_pipeline(reference_data, current_data)` from
`src/drift/pipeline.py` (lines 84-102): returns a constant report. -/
def run_pipeline (reference_data current_data : List ℚ) : SimpleReport :=
  { drift_detected := false, metrics := [], alerts := [] }

/- ### Helper lemmas about `generate_alert` -/

/-- On a drift-detected record whose severity-selection value and
threshold entry are numbers, `generate_alert` returns the full alert. -/
lemma genAlert_numeric_drift (l : Record) (d m : Val) (v t : ℚ)
    (hd : l.lookup "drift_detected" = some d) (hdt : pyTruthy d = true)
    (hm : l.lookup "metric" = some m) (hv : svalue l = Val.q v)
    (ht : (l.lookup "threshold").getD (Val.q 0) = Val.q t) :
    generate_alert (PyObj.dict l) = Except.ok (some
      { alert := true
        severity := if v ≤ 2 * t then "warning" else "critical"
        metric := m
        message := "Drift detected using " ++ pyStr m ++ " metric"
        details := l.filter (fun kv => kv.1 != "drift_detected") }) := by
  simp [generate_alert, hd, hm, hdt, hv, ht, pyLe, pyMul2, toNum]

/-- On a record whose `drift_detected` entry is falsy, `generate_alert`
returns no alert. -/
lemma genAlert_no_drift (l : Record) (d m : Val)
    (hd : l.lookup "drift_detected" = some d) (hdt : pyTruthy d = false)
    (hm : l.lookup "metric" = some m) :
    generate_alert (PyObj.dict l) = Except.ok none := by
  simp [generate_alert, hd, hm, hdt]

/- ### Counting lemmas for the histogram refinement -/

/-- Splitting a count along a sub-predicate: the `Q`-count is the
`P`-count plus the count of elements satisfying `Q` but not `P`. -/
lemma countP_split (P Q : ℚ → Bool) (h : ∀ x, P x = true → Q x = true) :
    ∀ l : List ℚ, l.countP Q = l.countP P + l.countP (fun x => Q x && !P x) := by
  intro l
  induction l with
  | nil => simp
  | cons a t ih =>
    simp only [List.countP_cons, ih]
    by_cases hP : P a = true
    · have hQ := h a hP
      simp [hP, hQ]
      omega
    · simp only [Bool.not_eq_true] at hP
      by_cases hQ : Q a = true
      · simp [hP, hQ]
        omega
      · simp only [Bool.not_eq_true] at hQ
        simp [hP, hQ]

/-- `countP` only depends on the pointwise behavior of the predicate. -/
lemma countP_ext (p q : ℚ → Bool) (h : ∀ x, p x = q x) (l : List ℚ) :
    l.countP p = l.countP q := by
  induction l with
  | nil => simp
  | cons a t ih => simp [List.countP_cons, ih, h a]

/-- Difference of cumulative counts below two ordered cut points equals
the count of the half-open interval between them. -/
lemma count_diff_mid (l : List ℚ) (a b : ℚ) (hab : a ≤ b) :
    l.countP (fun x => decide (x < b)) - l.countP (fun x => decide (x < a)) =
    l.countP (fun x => decide (a ≤ x) && decide (x < b)) := by
  have h := countP_split (fun x => decide (x < a)) (fun x => decide (x < b))
    (fun x hx => by simp at hx ⊢; linarith) l
  rw [h]
  rw [countP_ext (fun x => decide (x < b) && !decide (x < a))
    (fun x => decide (a ≤ x) && decide (x < b)) (fun x => by
      by_cases h1 : a ≤ x <;> by_cases h2 : x < b <;>
        simp [h1, h2, not_lt, not_le] <;> linarith)]
  omega

/-- The whole sample minus the cumulative count below a cut point is
the count at or above it. -/
lemma count_last (l : List ℚ) (a : ℚ) :
    l.length - l.countP (fun x => decide (x < a)) =
    l.countP (fun x => decide (a ≤ x)) := by
  have h := countP_split (fun x => decide (x < a)) (fun _ => true)
    (fun x _ => rfl) l
  simp only [List.countP_true] at h
  rw [h]
  rw [countP_ext (fun x => true && !decide (x < a))
    (fun x => decide (a ≤ x)) (fun x => by
      by_cases h1 : a ≤ x <;> simp [h1, not_lt, not_le] <;> linarith)]
  omega

lemma foldl_min_le (xs : List ℚ) (x : ℚ) : xs.foldl min x ≤ x := by
  induction xs generalizing x with
  | nil => exact le_refl x
  | cons y ys ih => exact le_trans (ih (min x y)) (min_le_left x y)

lemma le_foldl_max (xs : List ℚ) (x : ℚ) : x ≤ xs.foldl max x := by
  induction xs generalizing x with
  | nil => exact le_refl x
  | cons y ys ih => exact le_trans (le_max_left x y) (ih (max x y))

/-- The minimum of a sample never exceeds its maximum. -/
lemma npMin_le_npMax (l : List ℚ) : npMin l ≤ npMax l := by
  cases l with
  | nil => exact le_refl 0
  | cons x xs => exact le_trans (foldl_min_le xs x) (le_foldl_max xs x)

/-- With `rmin ≤ rmax`, the 11 bin edges are nondecreasing. -/
lemma psiEdge_mono (rmin rmax : ℚ) (h : rmin ≤ rmax) (j k : ℕ) (hjk : j ≤ k) :
    psiEdge rmin rmax j ≤ psiEdge rmin rmax k := by
  have hq : (j : ℚ) ≤ (k : ℚ) := by exact_mod_cast hjk
  have hd : (0 : ℚ) ≤ (rmax - rmin) / 10 := by
    apply div_nonneg (by linarith) (by norm_num)
  simp only [psiEdge]
  have := mul_le_mul_of_nonneg_right hq hd
  linarith

/-- The histogram's difference-of-cumulatives count per bin equals the
spec's interval-membership count per bin. -/
lemma psiCount_eq_specBinCount (rmin rmax : ℚ) (h : rmin ≤ rmax)
    (sample : List ℚ) (i : ℕ) (hi : i < 10) :
    psiCount rmin rmax sample i = specBinCount rmin rmax sample i := by
  have hm : ∀ j k : ℕ, j ≤ k → psiEdge rmin rmax j ≤ psiEdge rmin rmax k :=
    psiEdge_mono rmin rmax h
  interval_cases i <;>
    simp only [psiCount, psiCum, specBinCount, specBinMem] <;> norm_num
  · exact count_diff_mid sample _ _ (hm 1 2 (by norm_num))
  · exact count_diff_mid sample _ _ (hm 2 3 (by norm_num))
  · exact count_diff_mid sample _ _ (hm 3 4 (by norm_num))
  · exact count_diff_mid sample _ _ (hm 4 5 (by norm_num))
  · exact count_diff_mid sample _ _ (hm 5 6 (by norm_num))
  · exact count_diff_mid sample _ _ (hm 6 7 (by norm_num))
  · exact count_diff_mid sample _ _ (hm 7 8 (by norm_num))
  · exact count_diff_mid sample _ _ (hm 8 9 (by norm_num))
  · exact count_last sample _

/- ### Helper lemmas for the pipeline invariant -/

/-- On a record with a boolean `drift_detected` entry and numeric
severity inputs, `generate_alert` succeeds and produces an alert exactly
when the flag is true. -/
lemma genAlert_isSome (l : Record) (b : Bool) (m : Val) (v t : ℚ)
    (hd : l.lookup "drift_detected" = some (Val.b b))
    (hm : l.lookup "metric" = some m) (hv : svalue l = Val.q v)
    (ht : (l.lookup "threshold").getD (Val.q 0) = Val.q t) :
    ∃ oa, generate_alert (PyObj.dict l) = Except.ok oa ∧ oa.isSome = b := by
  cases b with
  | false => exact ⟨none, genAlert_no_drift l (Val.b false) m hd rfl hm, rfl⟩
  | true => exact ⟨some _, genAlert_numeric_drift l (Val.b true) m v t hd rfl hm hv ht, rfl⟩

/-- Whenever `assemble_report` succeeds on a detector record with a
boolean flag and numeric severity inputs, the report has at most one
alert and the flag is true exactly when there is one alert. -/
lemma assemble_report_invariant (rl cl : ℕ) (l : Record)
    (mo : List (String × MetricResult)) (b : Bool) (m : Val) (v t : ℚ)
    (hd : l.lookup "drift_detected" = some (Val.b b))
    (hm : l.lookup "metric" = some m) (hv : svalue l = Val.q v)
    (ht : (l.lookup "threshold").getD (Val.q 0) = Val.q t)
    (report : Report)
    (h : assemble_report rl cl (l, mo) = Except.ok report) :
    report.alerts.length ≤ 1 ∧
    (report.drift_detected = Val.b true ↔ report.alerts.length = 1) := by
  obtain ⟨oa, hga, hsome⟩ := genAlert_isSome l b m v t hd hm hv ht
  simp only [assemble_report, hga, getItem, hd] at h
  cases oa with
  | none =>
    cases h
    simp [← hsome]
  | some a =>
    cases h
    simp [← hsome]

/- ### Theorems for claim C1 -/

/-- C1. For every threshold > 0: `detect_psi_drift` returns
`drift_detected = true` iff `psi_value > threshold`, `detect_ks_drift`
iff `statistic > threshold`, `detect_chi_square_drift` iff
`p_value < threshold`; in all three, equality with the threshold yields
`drift_detected = false`. -/
theorem c1_detectors_strict_threshold (v s p t : ℚ) (ht : 0 < t) :
    (detect_psi_drift v t).map (fun r => r.lookup "drift_detected") =
      Except.ok (some (Val.b (decide (v > t)))) ∧
    (detect_ks_drift s p t).map (fun r => r.lookup "drift_detected") =
      Except.ok (some (Val.b (decide (s > t)))) ∧
    (detect_chi_square_drift s p t).map (fun r => r.lookup "drift_detected") =
      Except.ok (some (Val.b (decide (p < t)))) ∧
    (detect_psi_drift t t).map (fun r => r.lookup "drift_detected") =
      Except.ok (some (Val.b false)) ∧
    (detect_ks_drift t p t).map (fun r => r.lookup "drift_detected") =
      Except.ok (some (Val.b false)) ∧
    (detect_chi_square_drift s t t).map (fun r => r.lookup "drift_detected") =
      Except.ok (some (Val.b false)) := by
  have hnt : ¬ t ≤ 0 := not_le.mpr ht
  refine ⟨?_, ?_, ?_, ?_, ?_, ?_⟩ <;>
    simp [detect_psi_drift, detect_ks_drift, detect_chi_square_drift,
      List.lookup, hnt, Except.map]

/-- Witness for C1 at `v = 3, s = 1/2, p = 1/4, t = 1`. -/
theorem c1_detectors_strict_threshold_witness :
    (0 : ℚ) < 1 ∧
    ((detect_psi_drift 3 1).map (fun r => r.lookup "drift_detected") =
      Except.ok (some (Val.b (decide ((3 : ℚ) > 1)))) ∧
    (detect_ks_drift (1/2) (1/4) 1).map (fun r => r.lookup "drift_detected") =
      Except.ok (some (Val.b (decide ((1/2 : ℚ) > 1)))) ∧
    (detect_chi_square_drift (1/2) (1/4) 1).map
        (fun r => r.lookup "drift_detected") =
      Except.ok (some (Val.b (decide ((1/4 : ℚ) < 1)))) ∧
    (detect_psi_drift 1 1).map (fun r => r.lookup "drift_detected") =
      Except.ok (some (Val.b false)) ∧
    (detect_ks_drift 1 (1/4) 1).map (fun r => r.lookup "drift_detected") =
      Except.ok (some (Val.b false)) ∧
    (detect_chi_square_drift (1/2) 1 1).map
        (fun r => r.lookup "drift_detected") =
      Except.ok (some (Val.b false))) :=
  ⟨by norm_num, c1_detectors_strict_threshold 3 (1/2) (1/4) 1 (by norm_num)⟩

/- ### Theorems for claim C2 -/

/-- C2, counterexample to the claim as stated: the chi-square detection
record for `statistic = 10, p_value = 1/100, threshold = 1` has
`drift_detected = true`, and `generate_alert` classifies it as
`"critical"`, not `"warning"` — the record carries a `statistic` key, so
the severity-selection value is the statistic `10 > 2 * 1`, not the
zero fallback. -/
theorem c2_chi_square_severity_counterexample :
    ((detect_chi_square_drift 10 (1/100) 1).bind
        (fun r => generate_alert (PyObj.dict r))).map
      (fun o => o.map (fun a => a.severity)) = Except.ok (some "critical") := by
  have hrec : detect_chi_square_drift 10 (1/100) 1 = Except.ok
      [("drift_detected", Val.b true), ("metric", Val.s "chi_square"),
       ("statistic", Val.q 10), ("p_value", Val.q (1/100)),
       ("threshold", Val.q 1)] := by
    simp only [detect_chi_square_drift]
    rw [if_neg (by norm_num : ¬ (1:ℚ) ≤ 0),
        decide_eq_true (by norm_num : (1/100:ℚ) < 1)]
  have halert := genAlert_numeric_drift
      [("drift_detected", Val.b true), ("metric", Val.s "chi_square"),
       ("statistic", Val.q 10), ("p_value", Val.q (1/100)),
       ("threshold", Val.q 1)]
      (Val.b true) (Val.s "chi_square") 10 1 rfl rfl rfl rfl rfl
  rw [hrec]
  simp only [Except.bind]
  rw [halert]
  simp only [Except.map, Option.map]
  rw [if_neg (by norm_num : ¬ (10:ℚ) ≤ 2 * 1)]

/-- C2, amended: for every chi-square detection record produced by
`detect_chi_square_drift` with `drift_detected = true`, the
severity-selection value of `generate_alert` is the record's carried
`statistic` (the zero fallback is unreachable because the record always
carries a `statistic` key), so severity is `"warning"` iff
`statistic ≤ 2 * threshold` and `"critical"` otherwise. -/
theorem c2_chi_square_severity_from_statistic (s p t : ℚ)
    (ht : 0 < t) (hp : p < t) :
    ∃ r, detect_chi_square_drift s p t = Except.ok r ∧
      svalue r = Val.q s ∧
      generate_alert (PyObj.dict r) = Except.ok (some
        { alert := true
          severity := if s ≤ 2 * t then "warning" else "critical"
          metric := Val.s "chi_square"
          message := "Drift detected using chi_square metric"
          details := [("metric", Val.s "chi_square"), ("statistic", Val.q s),
                      ("p_value", Val.q p), ("threshold", Val.q t)] }) := by
  refine ⟨[("drift_detected", Val.b true), ("metric", Val.s "chi_square"),
           ("statistic", Val.q s), ("p_value", Val.q p),
           ("threshold", Val.q t)], ?_, by rfl, ?_⟩
  · simp [detect_chi_square_drift, not_le.mpr ht, hp]
  · exact genAlert_numeric_drift _ (Val.b true) (Val.s "chi_square") s t
      (by rfl) (by rfl) (by rfl) (by rfl) (by rfl)

/-- Witness for C2 (amended) at `statistic = 10, p_value = 1/100,
threshold = 1`. -/
theorem c2_chi_square_severity_from_statistic_witness :
    (0 : ℚ) < 1 ∧ (1/100 : ℚ) < 1 ∧
    ∃ r, detect_chi_square_drift 10 (1/100) 1 = Except.ok r ∧
      svalue r = Val.q 10 ∧
      generate_alert (PyObj.dict r) = Except.ok (some
        { alert := true
          severity := if (10 : ℚ) ≤ 2 * 1 then "warning" else "critical"
          metric := Val.s "chi_square"
          message := "Drift detected using chi_square metric"
          details := [("metric", Val.s "chi_square"), ("statistic", Val.q 10),
                      ("p_value", Val.q (1/100)), ("threshold", Val.q 1)] }) :=
  ⟨by norm_num, by norm_num,
   c2_chi_square_severity_from_statistic 10 (1/100) 1 (by norm_num) (by norm_num)⟩

/- ### Theorems for claim C3 -/

/-- C3. For every pair of non-empty numerical samples, `calculate_psi`
computes exactly what the spec sentence describes: 10 equal-width bins
spanning `[min(reference), max(reference)]` with the outer edges
extended to ±infinity, per-bin counts turned into proportions
independently per channel, zero proportions replaced by ε = 1e-10
independently per channel, and the sum over bins of
`(curr_prop - ref_prop) * ln(curr_prop / ref_prop)`
(`calculate_psi_spec` renders the spec's words; the log is an arbitrary
external function shared by both sides). -/
theorem c3_calculate_psi_refines_spec (logf : ℚ → ℚ)
    (reference current : List ℚ)
    (href : reference ≠ []) (hcur : current ≠ []) :
    calculate_psi logf reference current =
      Except.ok (calculate_psi_spec logf reference current) := by
  have h1 : reference.length ≠ 0 := by simpa using href
  have h2 : current.length ≠ 0 := by simpa using hcur
  have hmm : npMin reference ≤ npMax reference := npMin_le_npMax reference
  have hprop : ∀ (sample : List ℚ) (i : ℕ), i < 10 →
      psiProp (npMin reference) (npMax reference) sample i =
        specProp (npMin reference) (npMax reference) sample i := by
    intro sample i hi
    simp only [psiProp, specProp,
      psiCount_eq_specBinCount (npMin reference) (npMax reference) hmm sample i hi]
  simp only [calculate_psi, calculate_psi_spec, if_neg h1, if_neg h2]
  congr 1
  apply Finset.sum_congr rfl
  intro i hi
  rw [hprop current i (Finset.mem_range.mp hi),
      hprop reference i (Finset.mem_range.mp hi)]

/-- Witness for C3 at `reference = [1, 2, 3]`, `current = [10, 20]`,
with the identity function standing in for the external log. -/
theorem c3_calculate_psi_refines_spec_witness :
    ([(1 : ℚ), 2, 3] ≠ [] ∧ [(10 : ℚ), 20] ≠ []) ∧
    calculate_psi (fun x => x) [1, 2, 3] [10, 20] =
      Except.ok (calculate_psi_spec (fun x => x) [1, 2, 3] [10, 20]) :=
  ⟨⟨by simp, by simp⟩,
   c3_calculate_psi_refines_spec (fun x => x) [1, 2, 3] [10, 20]
     (by simp) (by simp)⟩

/- ### Theorems for claim C4 -/

/-- C4, counterexample to the claim as stated: a mapping with the
`drift_detected` and `metric` keys and a truthy `drift_detected` on which
`generate_alert` raises a `TypeError` instead of returning the
five-field alert object — the severity-selection value is the string
`"abc"` and the absent threshold defaults to the number `0`, so the
comparison `"abc" <= 2 * 0` is ill-typed, as in Python. -/
theorem c4_generate_alert_counterexample :
    generate_alert (PyObj.dict
        [("drift_detected", Val.b true), ("metric", Val.s "psi"),
         ("value", Val.s "abc")]) =
      Except.error (PErr.typeError "unorderable types in comparison") := by
  rfl

/-- C4, amended: for every mapping containing `drift_detected` and
`metric` whose severity-selection value and threshold entry are numbers,
`generate_alert` returns nothing iff `drift_detected` is falsy;
otherwise it returns the alert object with exactly the five fields
`{alert, severity, metric, message, details}`, `alert = true`, `metric`
the input's metric, the fixed message template, and `details` the input
record with the `drift_detected` key removed and every other key
(including unrecognized extra keys) passed through unchanged. -/
theorem c4_generate_alert_shape (l : Record) (d m : Val) (v t : ℚ)
    (hd : l.lookup "drift_detected" = some d)
    (hm : l.lookup "metric" = some m)
    (hv : svalue l = Val.q v)
    (ht : (l.lookup "threshold").getD (Val.q 0) = Val.q t) :
    (pyTruthy d = false →
      generate_alert (PyObj.dict l) = Except.ok none) ∧
    (pyTruthy d = true →
      generate_alert (PyObj.dict l) = Except.ok (some
        { alert := true
          severity := if v ≤ 2 * t then "warning" else "critical"
          metric := m
          message := "Drift detected using " ++ pyStr m ++ " metric"
          details := l.filter (fun kv => kv.1 != "drift_detected") })) :=
  ⟨fun hdf => genAlert_no_drift l d m hd hdf hm,
   fun hdt => genAlert_numeric_drift l d m v t hd hdt hm hv ht⟩

/-- Witness for C4 (amended) on a drift-detected PSI record and on a
no-drift record. -/
theorem c4_generate_alert_shape_witness :
    generate_alert (PyObj.dict
        [("drift_detected", Val.b true), ("metric", Val.s "psi"),
         ("value", Val.q (3/10)), ("threshold", Val.q (1/10)),
         ("extra", Val.s "diag")]) =
      Except.ok (some
        { alert := true
          severity := "critical"
          metric := Val.s "psi"
          message := "Drift detected using psi metric"
          details := [("metric", Val.s "psi"), ("value", Val.q (3/10)),
                      ("threshold", Val.q (1/10)), ("extra", Val.s "diag")] }) ∧
    generate_alert (PyObj.dict
        [("drift_detected", Val.b false), ("metric", Val.s "psi"),
         ("value", Val.q (1/20)), ("threshold", Val.q (1/10))]) =
      Except.ok none := by
  constructor
  · have h := (c4_generate_alert_shape
      [("drift_detected", Val.b true), ("metric", Val.s "psi"),
       ("value", Val.q (3/10)), ("threshold", Val.q (1/10)),
       ("extra", Val.s "diag")]
      (Val.b true) (Val.s "psi") (3/10) (1/10)
      (by rfl) (by rfl) (by rfl) (by rfl)).2 (by rfl)
    rw [h]
    norm_num [pyStr]
    decide
  · exact (c4_generate_alert_shape
      [("drift_detected", Val.b false), ("metric", Val.s "psi"),
       ("value", Val.q (1/20)), ("threshold", Val.q (1/10))]
      (Val.b false) (Val.s "psi") (1/20) (1/10)
      (by rfl) (by rfl) (by rfl) (by rfl)).1 (by rfl)

/- ### Theorems for claim C5 -/

/-- C5. In `generate_alert`, for every drift-detected record (numeric
severity-selection value and threshold), a value exactly equal to
`2 * threshold` yields severity `"warning"`, and any value strictly
greater yields severity `"critical"`. -/
theorem c5_severity_boundary (l : Record) (d m : Val) (v t : ℚ)
    (hd : l.lookup "drift_detected" = some d) (hdt : pyTruthy d = true)
    (hm : l.lookup "metric" = some m) (hv : svalue l = Val.q v)
    (ht : (l.lookup "threshold").getD (Val.q 0) = Val.q t) :
    (v = 2 * t → ∃ a, generate_alert (PyObj.dict l) = Except.ok (some a) ∧
      a.severity = "warning") ∧
    (v > 2 * t → ∃ a, generate_alert (PyObj.dict l) = Except.ok (some a) ∧
      a.severity = "critical") := by
  have key := genAlert_numeric_drift l d m v t hd hdt hm hv ht
  constructor
  · intro hveq
    exact ⟨_, key, by simp [hveq]⟩
  · intro hvgt
    exact ⟨_, key, by simp [not_le.mpr hvgt]⟩

/-- Witness for C5: boundary record (`value = 2 * threshold`) yields
warning, a strictly greater value yields critical. -/
theorem c5_severity_boundary_witness :
    (∃ a, generate_alert (PyObj.dict
        [("drift_detected", Val.b true), ("metric", Val.s "psi"),
         ("value", Val.q (1/5)), ("threshold", Val.q (1/10))]) =
      Except.ok (some a) ∧ a.severity = "warning") ∧
    (∃ a, generate_alert (PyObj.dict
        [("drift_detected", Val.b true), ("metric", Val.s "ks"),
         ("value", Val.q (21/100)), ("threshold", Val.q (1/10))]) =
      Except.ok (some a) ∧ a.severity = "critical") := by
  constructor
  · exact (c5_severity_boundary
      [("drift_detected", Val.b true), ("metric", Val.s "psi"),
       ("value", Val.q (1/5)), ("threshold", Val.q (1/10))]
      (Val.b true) (Val.s "psi") (1/5) (1/10)
      (by rfl) (by rfl) (by rfl) (by rfl) (by rfl)).1 (by norm_num)
  · exact (c5_severity_boundary
      [("drift_detected", Val.b true), ("metric", Val.s "ks"),
       ("value", Val.q (21/100)), ("threshold", Val.q (1/10))]
      (Val.b true) (Val.s "ks") (21/100) (1/10)
      (by rfl) (by rfl) (by rfl) (by rfl) (by rfl)).2 (by norm_num)

/- ### Theorems for claim C6 -/

/-- C6. For every table and sizes with `0 < reference_size ≤ len` and
`0 < current_size ≤ len`, `get_windows` returns (first `reference_size`
rows, last `current_size` rows) in original order — overlap permitted,
since each size is only bounded individually; a non-positive or
out-of-bounds size raises a validation error naming which bound failed
and its value. -/
theorem c6_get_windows_spec {α : Type} (data : List α) (r c : ℤ) :
    (0 < r → r ≤ (data.length : ℤ) → 0 < c → c ≤ (data.length : ℤ) →
      get_windows data r c =
        Except.ok (data.take r.toNat, data.drop (data.length - c.toNat))) ∧
    (r ≤ 0 → get_windows data r c =
      Except.error (PErr.valueError "reference_size must be greater than 0")) ∧
    (0 < r → c ≤ 0 → get_windows data r c =
      Except.error (PErr.valueError "current_size must be greater than 0")) ∧
    (0 < r → 0 < c → (data.length : ℤ) < r → get_windows data r c =
      Except.error (PErr.valueError ("reference_size (" ++ toString r
        ++ ") exceeds data size (" ++ toString (data.length : ℤ) ++ ")"))) ∧
    (0 < r → r ≤ (data.length : ℤ) → 0 < c → (data.length : ℤ) < c →
      get_windows data r c =
        Except.error (PErr.valueError ("current_size (" ++ toString c
          ++ ") exceeds data size (" ++ toString (data.length : ℤ) ++ ")"))) := by
  refine ⟨?_, ?_, ?_, ?_, ?_⟩
  · intro h1 h2 h3 h4
    simp only [get_windows]
    rw [if_neg (by omega), if_neg (by omega), if_neg (by omega),
        if_neg (by omega)]
  · intro h1
    simp only [get_windows]
    rw [if_pos h1]
  · intro h1 h2
    simp only [get_windows]
    rw [if_neg (by omega), if_pos h2]
  · intro h1 h2 h3
    simp only [get_windows]
    rw [if_neg (by omega), if_neg (by omega), if_pos (by omega)]
  · intro h1 h2 h3 h4
    simp only [get_windows]
    rw [if_neg (by omega), if_neg (by omega), if_neg (by omega),
        if_pos (by omega)]

/-- Witness for C6 on the table `[10, 20, 30]`: overlapping success
windows and all four error cases. -/
theorem c6_get_windows_spec_witness :
    get_windows [10, 20, 30] 2 2 = Except.ok ([10, 20], [20, 30]) ∧
    get_windows [10, 20, 30] 0 2 =
      Except.error (PErr.valueError "reference_size must be greater than 0") ∧
    get_windows [10, 20, 30] 2 (-1) =
      Except.error (PErr.valueError "current_size must be greater than 0") ∧
    get_windows [10, 20, 30] 4 2 =
      Except.error
        (PErr.valueError "reference_size (4) exceeds data size (3)") ∧
    get_windows [10, 20, 30] 2 4 =
      Except.error
        (PErr.valueError "current_size (4) exceeds data size (3)") := by
  refine ⟨?_, ?_, ?_, ?_, ?_⟩
  · have h := (c6_get_windows_spec [10, 20, 30] 2 2).1
      (by norm_num) (by norm_num) (by norm_num) (by norm_num)
    simpa using h
  · exact (c6_get_windows_spec [10, 20, 30] 0 2).2.1 (by norm_num)
  · exact (c6_get_windows_spec [10, 20, 30] 2 (-1)).2.2.1 (by norm_num) (by norm_num)
  · have h := (c6_get_windows_spec [10, 20, 30] 4 2).2.2.2.1
      (by norm_num) (by norm_num) (by norm_num)
    simpa using h
  · have h := (c6_get_windows_spec [10, 20, 30] 2 4).2.2.2.2
      (by norm_num) (by norm_num) (by norm_num) (by norm_num)
    simpa using h

/- ### Theorems for claim C7 -/

/-- C7. `generate_alert` raises a type error for every input that is not
a key-value mapping (including the absent input `None` and empty
non-mapping values); for a mapping that lacks the `drift_detected` key
or the `metric` key, it raises a validation error naming the missing
key. -/
theorem c7_generate_alert_input_validation (o : PyObj) (l : Record) :
    ((∀ l2, o ≠ PyObj.dict l2) →
      generate_alert o =
        Except.error (PErr.typeError "detector_output must be a dictionary")) ∧
    (l.lookup "drift_detected" = none →
      generate_alert (PyObj.dict l) =
        Except.error (PErr.valueError "drift_detected key is required")) ∧
    (∀ d, l.lookup "drift_detected" = some d → l.lookup "metric" = none →
      generate_alert (PyObj.dict l) =
        Except.error (PErr.valueError "metric key is required")) := by
  refine ⟨?_, ?_, ?_⟩
  · intro hno
    cases o with
    | dict l2 => exact absurd rfl (hno l2)
    | pynone => rfl
    | atom v => rfl
  · intro hnone
    simp [generate_alert, hnone]
  · intro d hd hmn
    simp [generate_alert, hd, hmn]

/-- Witness for C7: `None`, an empty string, an empty dict, and a dict
missing only `metric`. -/
theorem c7_generate_alert_input_validation_witness :
    generate_alert PyObj.pynone =
      Except.error (PErr.typeError "detector_output must be a dictionary") ∧
    generate_alert (PyObj.atom (Val.s "")) =
      Except.error (PErr.typeError "detector_output must be a dictionary") ∧
    generate_alert (PyObj.dict []) =
      Except.error (PErr.valueError "drift_detected key is required") ∧
    generate_alert (PyObj.dict [("drift_detected", Val.b true)]) =
      Except.error (PErr.valueError "metric key is required") :=
  ⟨(c7_generate_alert_input_validation PyObj.pynone []).1
      (fun _ h => PyObj.noConfusion h),
   (c7_generate_alert_input_validation (PyObj.atom (Val.s "")) []).1
      (fun _ h => PyObj.noConfusion h),
   (c7_generate_alert_input_validation (PyObj.dict []) []).2.1 (by rfl),
   (c7_generate_alert_input_validation (PyObj.dict [("drift_detected", Val.b true)])
      [("drift_detected", Val.b true)]).2.2 (Val.b true) (by rfl) (by rfl)⟩

/- ### Theorems for claim C8 -/

/-- C8. `run_drift_pipeline` raises a validation error naming which side
is empty whenever either input table is empty, and raises
"unsupported metric: <name>" for every metric outside
{psi, ks, chi_square}; in either case the call aborts with the error
(an `Except.error`, never a partial report). -/
theorem c8_pipeline_validation (logf : ℚ → ℚ)
    (ks2samp chi2 : List ℚ → List ℚ → ℚ × ℚ)
    (reference_data current_data : List ℚ) (ft metric : String) (t : ℚ) :
    (reference_data = [] →
      run_drift_pipeline logf ks2samp chi2 reference_data current_data ft metric t =
        Except.error (PErr.valueError "reference data cannot be empty")) ∧
    (reference_data ≠ [] → current_data = [] →
      run_drift_pipeline logf ks2samp chi2 reference_data current_data ft metric t =
        Except.error (PErr.valueError "current data cannot be empty")) ∧
    (reference_data ≠ [] → current_data ≠ [] →
      metric ∉ (["psi", "ks", "chi_square"] : List String) →
      run_drift_pipeline logf ks2samp chi2 reference_data current_data ft metric t =
        Except.error (PErr.valueError ("unsupported metric: " ++ metric))) := by
  refine ⟨?_, ?_, ?_⟩
  · intro h1
    simp only [run_drift_pipeline]
    rw [if_pos (by simp [h1])]
  · intro h1 h2
    simp only [run_drift_pipeline]
    rw [if_neg (by simpa using h1), if_pos (by simp [h2])]
  · intro h1 h2 h3
    simp only [run_drift_pipeline]
    rw [if_neg (by simpa using h1), if_neg (by simpa using h2), if_pos h3]

/-- Witness for C8: empty reference, empty current, and the unsupported
metric "wasserstein". -/
theorem c8_pipeline_validation_witness :
    run_drift_pipeline (fun x => x) (fun _ _ => (0, 0)) (fun _ _ => (0, 0))
        [] [(1 : ℚ)] "numerical" "psi" 1 =
      Except.error (PErr.valueError "reference data cannot be empty") ∧
    run_drift_pipeline (fun x => x) (fun _ _ => (0, 0)) (fun _ _ => (0, 0))
        [(1 : ℚ)] [] "numerical" "psi" 1 =
      Except.error (PErr.valueError "current data cannot be empty") ∧
    run_drift_pipeline (fun x => x) (fun _ _ => (0, 0)) (fun _ _ => (0, 0))
        [(1 : ℚ)] [(2 : ℚ)] "numerical" "wasserstein" 1 =
      Except.error (PErr.valueError "unsupported metric: wasserstein") := by
  refine ⟨?_, ?_, ?_⟩
  · exact (c8_pipeline_validation (fun x => x) (fun _ _ => (0, 0))
      (fun _ _ => (0, 0)) [] [1] "numerical" "psi" 1).1 rfl
  · exact (c8_pipeline_validation (fun x => x) (fun _ _ => (0, 0))
      (fun _ _ => (0, 0)) [1] [] "numerical" "psi" 1).2.1 (by simp) rfl
  · have h := (c8_pipeline_validation (fun x => x) (fun _ _ => (0, 0))
      (fun _ _ => (0, 0)) [1] [2] "numerical" "wasserstein" 1).2.2
      (by simp) (by simp) (by decide)
    simpa using h

/- ### Theorems for claim C9 -/

/-- C9. Every successful `run_drift_pipeline` call returns a report with
at most one alert, and `drift_detected` is true iff the alerts list has
exactly one element. -/
theorem c9_pipeline_report_invariant (logf : ℚ → ℚ)
    (ks2samp chi2 : List ℚ → List ℚ → ℚ × ℚ)
    (reference_data current_data : List ℚ) (ft metric : String) (t : ℚ)
    (report : Report)
    (h : run_drift_pipeline logf ks2samp chi2 reference_data current_data
        ft metric t = Except.ok report) :
    report.alerts.length ≤ 1 ∧
    (report.drift_detected = Val.b true ↔ report.alerts.length = 1) := by
  by_cases h1 : reference_data.length = 0
  · simp [run_drift_pipeline, h1] at h
  by_cases h2 : current_data.length = 0
  · simp [run_drift_pipeline, h1, h2] at h
  by_cases h3 : metric ∈ (["psi", "ks", "chi_square"] : List String)
  case neg => simp [run_drift_pipeline, h1, h2, h3] at h
  unfold run_drift_pipeline at h
  rw [if_neg h1, if_neg h2, if_neg (not_not_intro h3)] at h
  by_cases hm1 : metric = "psi"
  · subst hm1
    rw [if_pos rfl] at h
    cases hcp : calculate_psi logf reference_data current_data with
    | error e => rw [hcp] at h; simp [Except.bind] at h
    | ok m =>
      rw [hcp] at h
      simp only [Except.bind] at h
      by_cases ht0 : t ≤ 0
      · simp [detect_psi_drift, ht0, Except.map] at h
      · simp only [detect_psi_drift, if_neg ht0, Except.map] at h
        exact assemble_report_invariant reference_data.length
          current_data.length
          [("drift_detected", Val.b (decide (m > t))), ("metric", Val.s "psi"),
           ("value", Val.q m), ("threshold", Val.q t)]
          [("psi", MetricResult.scalar m)] (decide (m > t)) (Val.s "psi")
          m t rfl rfl rfl rfl report h
  by_cases hm2 : metric = "ks"
  · subst hm2
    rw [if_neg (by decide), if_pos rfl] at h
    cases hck : calculate_ks ks2samp reference_data current_data with
    | error e => rw [hck] at h; simp [Except.bind] at h
    | ok r =>
      rw [hck] at h
      simp only [Except.bind] at h
      by_cases ht0 : t ≤ 0
      · simp [detect_ks_drift, ht0, Except.map] at h
      · simp only [detect_ks_drift, if_neg ht0, Except.map] at h
        exact assemble_report_invariant reference_data.length
          current_data.length
          [("drift_detected", Val.b (decide (r.1 > t))), ("metric", Val.s "ks"),
           ("statistic", Val.q r.1), ("p_value", Val.q r.2),
           ("threshold", Val.q t)]
          [("ks", MetricResult.test r.1 r.2)] (decide (r.1 > t)) (Val.s "ks")
          r.1 t rfl rfl rfl rfl report h
  · rw [if_neg hm1, if_neg hm2] at h
    cases hcc : calculate_chi_square chi2 reference_data current_data with
    | error e => rw [hcc] at h; simp [Except.bind] at h
    | ok r =>
      rw [hcc] at h
      simp only [Except.bind] at h
      by_cases ht0 : t ≤ 0
      · simp [detect_chi_square_drift, ht0, Except.map] at h
      · simp only [detect_chi_square_drift, if_neg ht0, Except.map] at h
        exact assemble_report_invariant reference_data.length
          current_data.length
          [("drift_detected", Val.b (decide (r.2 < t))),
           ("metric", Val.s "chi_square"), ("statistic", Val.q r.1),
           ("p_value", Val.q r.2), ("threshold", Val.q t)]
          [("chi_square", MetricResult.test r.1 r.2)] (decide (r.2 < t))
          (Val.s "chi_square") r.1 t rfl rfl rfl rfl report h

/-- Witness for C9: a concrete successful KS run (stub statistics) whose
report has no drift and no alerts. -/
theorem c9_pipeline_report_invariant_witness :
    run_drift_pipeline (fun x => x) (fun _ _ => (0, 0)) (fun _ _ => (0, 0))
        [5, 6] [7] "numerical" "ks" 1 =
      Except.ok { drift_detected := Val.b false, alerts := [],
                  metrics := [("ks", MetricResult.test 0 0)],
                  window := (2, 1) } ∧
    (({ drift_detected := Val.b false, alerts := [],
        metrics := [("ks", MetricResult.test 0 0)],
        window := (2, 1) } : Report).alerts.length ≤ 1 ∧
      (({ drift_detected := Val.b false, alerts := [],
          metrics := [("ks", MetricResult.test 0 0)],
          window := (2, 1) } : Report).drift_detected = Val.b true ↔
        ({ drift_detected := Val.b false, alerts := [],
           metrics := [("ks", MetricResult.test 0 0)],
           window := (2, 1) } : Report).alerts.length = 1)) := by
  have hrun : run_drift_pipeline (fun x => x) (fun _ _ => (0, 0))
      (fun _ _ => (0, 0)) [5, 6] [7] "numerical" "ks" 1 =
      Except.ok { drift_detected := Val.b false, alerts := [],
                  metrics := [("ks", MetricResult.test 0 0)],
                  window := (2, 1) } := by
    unfold run_drift_pipeline
    rw [if_neg (by simp), if_neg (by simp), if_neg (by decide),
        if_neg (by decide), if_pos rfl]
    simp only [calculate_ks, List.length_cons, List.length_nil, if_neg,
      Except.bind]
    rw [if_neg (by simp), if_neg (by simp)]
    simp only [Except.bind, detect_ks_drift]
    rw [if_neg (by norm_num), decide_eq_false (by norm_num : ¬ ((0:ℚ) > 1))]
    simp only [Except.map, assemble_report, generate_alert, List.lookup,
      pyTruthy, getItem]
    rfl
  exact ⟨hrun, c9_pipeline_report_invariant (fun x => x) (fun _ _ => (0, 0))
    (fun _ _ => (0, 0)) [5, 6] [7] "numerical" "ks" 1 _ hrun⟩

/- ### Theorems for claim C10 -/

/-- C10. The additionally exposed `run_pipeline(reference_data,
current_data)` ignores both arguments: every call returns the constant
`{drift_detected: false, metrics: {}, alerts: []}` and, being total,
never raises and never detects drift — unlike `run_drift_pipeline`,
which (for instance) raises on an empty reference table. -/
theorem c10_run_pipeline_constant :
    (∀ reference_data current_data : List ℚ,
      run_pipeline reference_data current_data =
        { drift_detected := false, metrics := [], alerts := [] }) ∧
    run_drift_pipeline (fun x => x) (fun _ _ => (0, 0)) (fun _ _ => (0, 0))
        [] [] "numerical" "psi" 1 =
      Except.error (PErr.valueError "reference data cannot be empty") :=
  ⟨fun _ _ => rfl, rfl⟩
